import Mathlib

/-!
Shallow embedding of `examples/advanced/dynamic-inventory/custom_inventory.py`,
a custom dynamic-inventory script: it builds one fixed JSON document describing
hosts, groups and per-host variables, and serves it through two CLI queries
(`--list` and `--host <hostname>`).
-/

/-- JSON values as produced and consumed by the script.  The script's data uses
only strings, integers, booleans, arrays and objects (Python dicts keep
insertion order, so an object is an ordered association list). -/
inductive Json where
  | str : String → Json
  | int : Int → Json
  | bool : Bool → Json
  | arr : List Json → Json
  | obj : List (String × Json) → Json

/-- Lookup of a key in an association list: Python dict indexing on the
(unique-key) literals of the script. -/
def lookupKey : List (String × Json) → String → Option Json
  | [], _ => none
  | (k, v) :: rest, key => if k = key then some v else lookupKey rest key

/-- `j[k]` on a JSON object; `none` when the key is missing (Python `KeyError`)
or `j` is not a dict (Python `TypeError`). -/
def Json.getKey : Json → String → Option Json
  | Json.obj kvs, k => lookupKey kvs k
  | _, _ => none

/-- The element list of a JSON array (empty for non-arrays). -/
def Json.arrElems : Json → List Json
  | Json.arr xs => xs
  | _ => []

/-- The key-value pairs of a JSON object (empty for non-objects). -/
def Json.objPairs : Json → List (String × Json)
  | Json.obj kvs => kvs
  | _ => []

/-- `get_inventory()`: the hard-coded inventory document, keys in the order of
the Python dict literal. -/
def get_inventory : Json :=
  Json.obj [
    ("all", Json.obj [
      ("hosts", Json.arr [Json.str "web1.example.com", Json.str "web2.example.com",
        Json.str "db1.example.com"]),
      ("vars", Json.obj [
        ("ansible_user", Json.str "ubuntu"),
        ("ansible_python_interpreter", Json.str "/usr/bin/python3")])]),
    ("webservers", Json.obj [
      ("hosts", Json.arr [Json.str "web1.example.com", Json.str "web2.example.com"]),
      ("vars", Json.obj [
        ("http_port", Json.int 80),
        ("https_port", Json.int 443)])]),
    ("databases", Json.obj [
      ("hosts", Json.arr [Json.str "db1.example.com"]),
      ("vars", Json.obj [
        ("db_port", Json.int 5432)])]),
    ("production", Json.obj [
      ("children", Json.arr [Json.str "webservers", Json.str "databases"]),
      ("vars", Json.obj [
        ("environment", Json.str "production")])]),
    ("_meta", Json.obj [
      ("hostvars", Json.obj [
        ("web1.example.com", Json.obj [
          ("ansible_host", Json.str "192.168.1.10"),
          ("server_id", Json.int 1)]),
        ("web2.example.com", Json.obj [
          ("ansible_host", Json.str "192.168.1.11"),
          ("server_id", Json.int 2)]),
        ("db1.example.com", Json.obj [
          ("ansible_host", Json.str "192.168.1.20"),
          ("server_id", Json.int 10),
          ("db_master", Json.bool true)])])])]

/-- `get_host_vars(hostname)`: the script computes
`get_inventory()['_meta']['hostvars'].get(hostname)` with an empty dict as the
default.  `none` models an uncaught Python exception (`KeyError` on a missing
`'_meta'` or `'hostvars'` key, or `.get` on a non-dict). -/
def get_host_vars (hostname : String) : Option Json := do
  let m ← get_inventory.getKey "_meta"
  let hv ← m.getKey "hostvars"
  match hv with
  | Json.obj _ => pure ((hv.getKey hostname).getD (Json.obj []))
  | _ => none

/-- The lookup of `hostname` inside `_meta.hostvars` of the inventory document
(used to state what `get_host_vars` returns). -/
def lookupHostvars (hostname : String) : Option Json :=
  (get_inventory.getKey "_meta").bind fun m =>
    (m.getKey "hostvars").bind fun hv => hv.getKey hostname

/-- Top-level key-value pairs of the inventory document. -/
def topPairs : List (String × Json) := get_inventory.objPairs

/-- Top-level key names of the inventory document (group names plus `_meta`). -/
def topGroupNames : List String := topPairs.map Prod.fst

/-- The raw `hosts` array of the top-level entry named `g` (empty when the
entry or its `hosts` key is absent). -/
def groupHostsRaw (g : String) : List Json :=
  (((get_inventory.getKey g).bind (fun j => j.getKey "hosts")).getD
    (Json.arr [])).arrElems

/-- Is this JSON value a string? -/
def isStr : Json → Bool
  | Json.str _ => true
  | _ => false

/-- Is this JSON value one of string, integer, boolean? -/
def isScalar : Json → Bool
  | Json.str _ => true
  | Json.int _ => true
  | Json.bool _ => true
  | _ => false

/-- The host-name strings of the `hosts` array of the top-level entry `g`. -/
def groupHosts (g : String) : List String :=
  (groupHostsRaw g).filterMap fun j =>
    match j with
    | Json.str s => some s
    | _ => none

/-- The raw `children` array of the top-level entry named `g`. -/
def groupChildrenRaw (g : String) : List Json :=
  (((get_inventory.getKey g).bind (fun j => j.getKey "children")).getD
    (Json.arr [])).arrElems

/-- The child-group names of the top-level entry `g`. -/
def groupChildren (g : String) : List String :=
  (groupChildrenRaw g).filterMap fun j =>
    match j with
    | Json.str s => some s
    | _ => none

/-- The variable values of the `vars` mapping of the top-level entry `g`. -/
def groupVarsValues (g : String) : List Json :=
  ((((get_inventory.getKey g).bind (fun j => j.getKey "vars")).getD
    (Json.obj []))).objPairs.map Prod.snd

/-- The host names that have an entry under `_meta.hostvars`. -/
def hostvarsNames : List String :=
  (((get_inventory.getKey "_meta").bind (fun j => j.getKey "hostvars")).getD
    (Json.obj [])).objPairs.map Prod.fst

/-- The variable values of the per-host mapping of `h` under `_meta.hostvars`. -/
def hostVarsValues (h : String) : List Json :=
  ((lookupHostvars h).getD (Json.obj [])).objPairs.map Prod.snd

/-! ## Serialization: `json.dumps(value, indent=2)` -/

/-- Lower-case hexadecimal digit, as Python's `\uXXXX` escapes use. -/
def hexDigit (n : Nat) : Char :=
  if n % 16 < 10 then Char.ofNat (48 + n % 16) else Char.ofNat (87 + n % 16)

/-- The escape sequence `json.dumps` (with its default `ensure_ascii=True`)
emits for one character of a string. -/
def escapeChar (c : Char) : List Char :=
  if c = '"' then ['\\', '"']
  else if c = '\\' then ['\\', '\\']
  else if c = '\n' then ['\\', 'n']
  else if c = '\t' then ['\\', 't']
  else if c = '\r' then ['\\', 'r']
  else if c.toNat = 8 then ['\\', 'b']
  else if c.toNat = 12 then ['\\', 'f']
  else if c.toNat < 32 || 126 < c.toNat then
    if c.toNat < 65536 then
      ['\\', 'u', hexDigit (c.toNat / 4096), hexDigit (c.toNat / 256),
        hexDigit (c.toNat / 16), hexDigit c.toNat]
    else
      let n := c.toNat - 65536
      let hi := 55296 + n / 1024
      let lo := 56320 + n % 1024
      ['\\', 'u', hexDigit (hi / 4096), hexDigit (hi / 256), hexDigit (hi / 16), hexDigit hi,
        '\\', 'u', hexDigit (lo / 4096), hexDigit (lo / 256), hexDigit (lo / 16), hexDigit lo]
  else [c]

/-- JSON string escaping of a whole string (without the surrounding quotes). -/
def escapeString (s : String) : String :=
  String.mk (s.data.map escapeChar).flatten

/-- Decimal rendering of an integer, as Python prints an `int`. -/
def intStr (i : Int) : String :=
  if i < 0 then "-" ++ Nat.repr i.natAbs else Nat.repr i.natAbs

/-- `n` spaces of indentation. -/
def spaces (n : Nat) : String := String.mk (List.replicate n ' ')

/-- One pending unit of serialization work: a value, the element lines of an
array, or the member lines of an object. -/
inductive DumpTask where
  | val : Json → DumpTask
  | elems : List Json → DumpTask
  | members : List (String × Json) → DumpTask

/-- `json.dumps(v, indent=2)` rendering, fuel-recursive so that it reduces by
kernel computation.  A value whose opening token sits on a line indented by
`ind` spaces puts the members of a container on their own lines indented by
`ind + 2` and the closing bracket on its own line indented by `ind`; empty
containers render inline; members are separated by a comma and a newline and
keys are separated from values by a colon and a space (Python's separators
when an `indent` is given).  The fuel, always at least the recursion depth at
every use, makes the unreachable `""` default. -/
def dumpF : Nat → Nat → DumpTask → String
  | 0, _, _ => ""
  | fuel + 1, ind, t =>
    match t with
    | DumpTask.val (Json.str s) => "\"" ++ escapeString s ++ "\""
    | DumpTask.val (Json.int i) => intStr i
    | DumpTask.val (Json.bool b) => if b then "true" else "false"
    | DumpTask.val (Json.arr []) => "[]"
    | DumpTask.val (Json.arr (x :: xs)) =>
      "[\n" ++ dumpF fuel (ind + 2) (DumpTask.elems (x :: xs)) ++ "\n" ++
        spaces ind ++ "]"
    | DumpTask.val (Json.obj []) => "\x7b\x7d"
    | DumpTask.val (Json.obj (p :: ps)) =>
      "\x7b\n" ++ dumpF fuel (ind + 2) (DumpTask.members (p :: ps)) ++ "\n" ++
        spaces ind ++ "\x7d"
    | DumpTask.elems [] => ""
    | DumpTask.elems [x] => spaces ind ++ dumpF fuel ind (DumpTask.val x)
    | DumpTask.elems (x :: y :: ys) =>
      spaces ind ++ dumpF fuel ind (DumpTask.val x) ++ ",\n" ++
        dumpF fuel ind (DumpTask.elems (y :: ys))
    | DumpTask.members [] => ""
    | DumpTask.members [(k, v)] =>
      spaces ind ++ "\"" ++ escapeString k ++ "\": " ++ dumpF fuel ind (DumpTask.val v)
    | DumpTask.members ((k, v) :: q :: qs) =>
      spaces ind ++ "\"" ++ escapeString k ++ "\": " ++ dumpF fuel ind (DumpTask.val v) ++
        ",\n" ++ dumpF fuel ind (DumpTask.members (q :: qs))

/-- `json.dumps(j, indent=2)`.  The fuel bounds the recursion depth at
100000, far beyond both the fixed document's depth (4) and the recursion
limit of the Python interpreter running the reference encoder, so it never
runs out on any value the script serializes. -/
def dumps (j : Json) : String := dumpF 100000 0 (DumpTask.val j)

/-! ## Parsing: `json.loads` on the subset of JSON the script emits
(strings, integers, booleans, arrays, objects — no floats, no `null`,
matching the constructors of `Json`). -/

/-- JSON whitespace test. -/
def isWsChar (c : Char) : Bool := c = ' ' || c = '\n' || c = '\t' || c = '\r'

/-- Drop leading JSON whitespace. -/
def skipWs : List Char → List Char
  | [] => []
  | c :: cs => if isWsChar c then skipWs cs else c :: cs

/-- Numeric value of one hexadecimal digit. -/
def hexVal (c : Char) : Option Nat :=
  if 48 ≤ c.toNat ∧ c.toNat ≤ 57 then some (c.toNat - 48)
  else if 97 ≤ c.toNat ∧ c.toNat ≤ 102 then some (c.toNat - 87)
  else if 65 ≤ c.toNat ∧ c.toNat ≤ 70 then some (c.toNat - 55)
  else none

/-- Decimal digit test. -/
def isDigitChar (c : Char) : Bool := 48 ≤ c.toNat && c.toNat ≤ 57

/-- Parse the body of a JSON string after its opening quote, handling the
escape sequences, up to and past the closing quote. -/
def parseStringBody : Nat → List Char → Option (String × List Char)
  | 0, _ => none
  | _ + 1, [] => none
  | fuel + 1, c :: cs =>
    if c = '"' then some ("", cs)
    else if c = '\\' then
      match cs with
      | [] => none
      | e :: cs2 =>
        let dec : Option (Char × List Char) :=
          if e = '"' then some ('"', cs2)
          else if e = '\\' then some ('\\', cs2)
          else if e = '/' then some ('/', cs2)
          else if e = 'n' then some ('\n', cs2)
          else if e = 't' then some ('\t', cs2)
          else if e = 'r' then some ('\r', cs2)
          else if e = 'b' then some (Char.ofNat 8, cs2)
          else if e = 'f' then some (Char.ofNat 12, cs2)
          else if e = 'u' then
            match cs2 with
            | a :: b :: c2 :: d :: cs3 =>
              match hexVal a, hexVal b, hexVal c2, hexVal d with
              | some ha, some hb, some hc, some hd =>
                some (Char.ofNat (ha * 4096 + hb * 256 + hc * 16 + hd), cs3)
              | _, _, _, _ => none
            | _ => none
          else none
        match dec with
        | some (ch, rest) =>
          match parseStringBody fuel rest with
          | some (s, r) => some (String.singleton ch ++ s, r)
          | none => none
        | none => none
    else
      match parseStringBody fuel cs with
      | some (s, r) => some (String.singleton c ++ s, r)
      | none => none

/-- Consume a maximal run of decimal digits, accumulating their value. -/
def parseDigitsAux : Nat → List Char → Nat → Nat × List Char
  | 0, cs, acc => (acc, cs)
  | _ + 1, [], acc => (acc, [])
  | fuel + 1, c :: cs, acc =>
    if isDigitChar c then parseDigitsAux fuel cs (acc * 10 + (c.toNat - 48))
    else (acc, c :: cs)

mutual

/-- Parse one JSON value, returning it with the unconsumed remainder. -/
def parseValue : Nat → List Char → Option (Json × List Char)
  | 0, _ => none
  | fuel + 1, cs =>
    match skipWs cs with
    | [] => none
    | c :: rest =>
      if c = '"' then
        match parseStringBody (fuel + 1) rest with
        | some (s, r) => some (Json.str s, r)
        | none => none
      else if c = '\x7b' then
        match skipWs rest with
        | '\x7d' :: r2 => some (Json.obj [], r2)
        | r2 =>
          match parseMembers fuel r2 with
          | some (kvs, r3) => some (Json.obj kvs, r3)
          | none => none
      else if c = '[' then
        match skipWs rest with
        | ']' :: r2 => some (Json.arr [], r2)
        | r2 =>
          match parseElems fuel r2 with
          | some (xs, r3) => some (Json.arr xs, r3)
          | none => none
      else if c = 't' then
        match rest with
        | 'r' :: 'u' :: 'e' :: r2 => some (Json.bool true, r2)
        | _ => none
      else if c = 'f' then
        match rest with
        | 'a' :: 'l' :: 's' :: 'e' :: r2 => some (Json.bool false, r2)
        | _ => none
      else if c = '-' then
        match rest with
        | d :: _ =>
          if isDigitChar d then
            let p := parseDigitsAux (fuel + 1) rest 0
            some (Json.int (-(p.1 : Int)), p.2)
          else none
        | [] => none
      else if isDigitChar c then
        let p := parseDigitsAux (fuel + 1) (c :: rest) 0
        some (Json.int (p.1 : Int), p.2)
      else none

/-- Parse the members of a non-empty JSON object after its opening brace,
up to and past the closing brace. -/
def parseMembers : Nat → List Char → Option (List (String × Json) × List Char)
  | 0, _ => none
  | fuel + 1, cs =>
    match skipWs cs with
    | '"' :: rest =>
      match parseStringBody (fuel + 1) rest with
      | some (k, r1) =>
        match skipWs r1 with
        | ':' :: r2 =>
          match parseValue fuel r2 with
          | some (v, r3) =>
            match skipWs r3 with
            | ',' :: r4 =>
              match parseMembers fuel r4 with
              | some (kvs, r5) => some ((k, v) :: kvs, r5)
              | none => none
            | '\x7d' :: r4 => some ([(k, v)], r4)
            | _ => none
          | none => none
        | _ => none
      | none => none
    | _ => none

/-- Parse the elements of a non-empty JSON array after its opening bracket,
up to and past the closing bracket. -/
def parseElems : Nat → List Char → Option (List Json × List Char)
  | 0, _ => none
  | fuel + 1, cs =>
    match parseValue fuel cs with
    | some (v, r1) =>
      match skipWs r1 with
      | ',' :: r2 =>
        match parseElems fuel r2 with
        | some (xs, r3) => some (v :: xs, r3)
        | none => none
      | ']' :: r2 => some ([v], r2)
      | _ => none
    | none => none

end

/-- `json.loads(s)`: parse a complete JSON document, rejecting trailing
non-whitespace. -/
def loads (s : String) : Option Json :=
  match parseValue (2 * s.length + 4) s.data with
  | some (v, rest) => if (skipWs rest).isEmpty then some v else none
  | none => none

/-! ## The command-line entry point `main()` -/

/-- The parsed command-line arguments: `args.list` from the `--list` flag
(`store_true`, so `false` when absent), `args.host` from the `--host` option
(`none` models Python's `None` when the option is absent). -/
structure Args where
  list : Bool
  host : Option String

/-- The observable outcome of one script invocation that parsed its
arguments successfully: what was printed to standard output and the process
exit code. -/
structure Output where
  stdout : String
  exitCode : Nat
deriving DecidableEq

/-- The help text `parser.print_help()` writes to standard output, generated
by the argparse library from the script's parser declaration (library
behaviour, not code of this repository; the spec describes it only as
"usage/help text"). -/
def helpText : String :=
  "usage: custom_inventory.py [-h] [--list] [--host HOST]\n\nCustom Ansible Dynamic Inventory\n\noptions:\n  -h, --help   show this help message and exit\n  --list       List all hosts\n  --host HOST  Get variables for a specific host\n"

/-- `main()` after successful argument parsing: dispatch on `args.list`, then
on the truthiness of `args.host` (Python's `elif args.host:` is false both for
`None` and for the empty string), printing with a trailing newline from
`print`.  `main` returns `None`, so the interpreter exits with code 0; `none`
models an uncaught exception escaping `main`. -/
def run (args : Args) : Option Output :=
  if args.list then
    some ⟨dumps get_inventory ++ "\n", 0⟩
  else
    match args.host with
    | some h =>
      if h = "" then some ⟨helpText, 0⟩
      else
        match get_host_vars h with
        | some hv => some ⟨dumps hv ++ "\n", 0⟩
        | none => none
    | none => some ⟨helpText, 0⟩

/-! ## The claims -/

/-- Claim C1: for every hostname string `h`, `get_host_vars h` returns the
entry for `h` in the inventory document's `_meta.hostvars` when such an entry
is present, and otherwise returns the empty mapping; the operation never
fails (it always returns `some`), and in particular
`get_host_vars "unknown.example.com"` returns the empty mapping rather than
an error. -/
theorem claim_C1_get_host_vars (h : String) :
    get_host_vars h = some ((lookupHostvars h).getD (Json.obj [])) ∧
    get_host_vars "unknown.example.com" = some (Json.obj []) :=
  ⟨rfl, rfl⟩

/-- Claim C2: invoking the program with the `--list` flag prints a JSON
rendering of the full inventory document such that parsing the printed output
yields a structure deep-equal to the value returned by `get_inventory`
(serialization round-trip), and the process exits with code 0. -/
theorem claim_C2_list_roundtrip (host : Option String) :
    run ⟨true, host⟩ = some ⟨dumps get_inventory ++ "\n", 0⟩ ∧
    loads (dumps get_inventory ++ "\n") = some get_inventory := by
  refine ⟨rfl, ?_⟩
  set_option maxRecDepth 100000 in rfl

/-- Claim C3: `get_host_vars "web1.example.com"` returns exactly the mapping
with `ansible_host` equal to `"192.168.1.10"` and `server_id` equal to `1`. -/
theorem claim_C3_web1_hostvars :
    get_host_vars "web1.example.com" =
      some (Json.obj [("ansible_host", Json.str "192.168.1.10"),
        ("server_id", Json.int 1)]) := rfl

/-- Claim C4: the document returned by `get_inventory` has all three example
hosts in the `all` group's host set, and `_meta.hostvars` has an entry for
each of those three hosts. -/
theorem claim_C4_all_hosts_and_hostvars :
    "web1.example.com" ∈ groupHosts "all" ∧
    "web2.example.com" ∈ groupHosts "all" ∧
    "db1.example.com" ∈ groupHosts "all" ∧
    (lookupHostvars "web1.example.com").isSome = true ∧
    (lookupHostvars "web2.example.com").isSome = true ∧
    (lookupHostvars "db1.example.com").isSome = true := by decide

/-- Claim C5: in the document returned by `get_inventory`, every entry of
every top-level entry's `hosts` array is a string, and every host listed
under any top-level entry's `hosts` also appears in the `all` group's
`hosts` list. -/
theorem claim_C5_hosts_in_all :
    (∀ g ∈ topGroupNames, (groupHostsRaw g).all isStr = true) ∧
    ∀ g ∈ topGroupNames, ∀ h ∈ groupHosts g, h ∈ groupHosts "all" := by decide

/-- Witness for claim C5 at the group `webservers` and host
`web1.example.com`. -/
theorem claim_C5_hosts_in_all_witness : "web1.example.com" ∈ groupHosts "all" :=
  claim_C5_hosts_in_all.2 "webservers" (by decide) "web1.example.com" (by decide)

/-- Counterexample to claim C6 as stated: for the hostname `""` supplied as
the value of `--host` (with `--list` absent), the program does not print the
HostVars mapping for that hostname (the empty JSON object) — Python's
`elif args.host:` treats the empty string as false, so the help text is
printed instead. -/
theorem claim_C6_counterexample :
    ¬ run ⟨false, some ""⟩ = some ⟨dumps (Json.obj []) ++ "\n", 0⟩ := by decide

/-- Claim C6 (amended): for every non-empty hostname string supplied as the
value of `--host` (with `--list` absent), the program prints the HostVars
mapping for that hostname as JSON and exits with code 0, even when the
hostname is unknown, in which case an empty JSON object is printed. -/
theorem claim_C6_host_query (h : String) (hne : h ≠ "") :
    run ⟨false, some h⟩ =
      some ⟨dumps ((lookupHostvars h).getD (Json.obj [])) ++ "\n", 0⟩ := by
  have step : run ⟨false, some h⟩ =
      if h = "" then some ⟨helpText, 0⟩
      else
        match get_host_vars h with
        | some hv => some ⟨dumps hv ++ "\n", 0⟩
        | none => none := rfl
  rw [step, if_neg hne]
  rfl

/-- Witness for the amended claim C6 at the unknown hostname
`unknown.example.com`. -/
theorem claim_C6_host_query_witness :
    run ⟨false, some "unknown.example.com"⟩ =
      some ⟨dumps ((lookupHostvars "unknown.example.com").getD (Json.obj [])) ++ "\n", 0⟩ :=
  claim_C6_host_query "unknown.example.com" (by decide)

/-- Claim C7: invoking the program with neither `--list` nor `--host` prints
the usage/help text to standard output, raises no unhandled error (the result
is `some`, not `none`), and exits with code 0. -/
theorem claim_C7_no_flags_help :
    run ⟨false, none⟩ = some ⟨helpText, 0⟩ ∧
    "usage:".data.isPrefixOf helpText.data = true := ⟨rfl, by decide⟩

/-- Claim C8: every variable value appearing in any top-level entry's `vars`
mapping and in every per-host mapping under `_meta.hostvars` of the document
returned by `get_inventory` is one of: string, integer, boolean. -/
theorem claim_C8_scalar_values :
    (∀ g ∈ topGroupNames, (groupVarsValues g).all isScalar = true) ∧
    ∀ h ∈ hostvarsNames, (hostVarsValues h).all isScalar = true := by decide

/-- Witness for claim C8 at the group `all` and the host `db1.example.com`. -/
theorem claim_C8_scalar_values_witness :
    (groupVarsValues "all").all isScalar = true ∧
    (hostVarsValues "db1.example.com").all isScalar = true :=
  ⟨claim_C8_scalar_values.1 "all" (by decide),
   claim_C8_scalar_values.2 "db1.example.com" (by decide)⟩

/-- Claim C9: when both the `--list` flag and a `--host` argument are
supplied, the program prints the full inventory document (the `--list` branch
takes precedence) and the `--host` argument is ignored: the outcome is
identical to a `--list`-only invocation. -/
theorem claim_C9_list_precedence (h : String) :
    run ⟨true, some h⟩ = some ⟨dumps get_inventory ++ "\n", 0⟩ ∧
    run ⟨true, some h⟩ = run ⟨true, none⟩ :=
  ⟨rfl, rfl⟩

/-- Claim C10: in the document returned by `get_inventory`, every entry of
every top-level entry's `children` array is a string, every group name listed
under any entry's `children` also exists as a top-level key of the document,
and `production`'s children are exactly `webservers` and `databases`. -/
theorem claim_C10_children_defined :
    (∀ g ∈ topGroupNames, (groupChildrenRaw g).all isStr = true) ∧
    (∀ g ∈ topGroupNames, ∀ c ∈ groupChildren g, c ∈ topGroupNames) ∧
    groupChildren "production" = ["webservers", "databases"] := by decide

/-- Witness for claim C10 at the group `production` and child `webservers`. -/
theorem claim_C10_children_defined_witness : "webservers" ∈ topGroupNames :=
  claim_C10_children_defined.2.1 "production" (by decide) "webservers" (by decide)
